import Mathlib

set_option linter.all false

/-! Shallow embedding of the match-filtering and aggregation pipeline of
`rivals_streamlit_app.py` (a Marvel Rivals match-history dashboard), together
with theorems settling the specification claims about it.

Modelling conventions:
* a Python dict of matches is an association list `List (String × MatchData)`
  in insertion order (Python dicts preserve insertion order);
* `match_details`, `map` and `match_timestamp` are `Option`s because the code
  reads them with `dict.get` and explicit defaults (`match_details` defaults to
  `[]`, `map` to `"Unknown"` in `get_map_performance_for_hero`) or indexes them
  with `[...]`, which raises on absence (`get_map_type_performance_for_hero`);
  a raised `KeyError` is modelled as a `none` result;
* `name`, `is_same_team`, `rank_delta` and `heroes` are plain fields: the data
  model declares them present, and the code's `dict.get` defaults (false, 0,
  empty list) coincide with a total record carrying those values;
* Python `defaultdict` accumulators are association lists updated by
  get-or-insert (`bumpStat` and friends), preserving first-insertion order;
* `dict(sorted(items, key=value, reverse=True))` is a stable descending sort,
  modelled by `List.insertionSort` with the flipped value order;
* float division of integer totals is exact rational division (`Rat`).
-/

/-- A `match_details` entry: player name, team flag relative to the viewed
player, signed elo change, and the heroes this player played in the match. -/
structure PlayerMatchRecord where
  name : String
  is_same_team : Bool
  rank_delta : Int
  heroes : List String
  deriving DecidableEq

/-- One match record: timestamp string, map name and the per-player records.
Fields are optional where the source reads them with `get`/`[...]`. -/
structure MatchData where
  match_timestamp : Option String
  map : Option String
  match_details : Option (List PlayerMatchRecord)
  deriving DecidableEq

/-- `match_data.get("match_details", [])`. -/
def matchDetails (md : MatchData) : List PlayerMatchRecord :=
  md.match_details.getD []

/-- The `IN_GAME_NAMES` configuration table (handle → in-game name). -/
def IN_GAME_NAMES : List (String × String) :=
  [("glacial_spark", "glacial_spark"),
   ("lunatoemuncher", "LunaToeMuncher"),
   ("liquidussnake1", "LiquidusSnake1")]

/-- `FRIENDS = set(IN_GAME_NAMES.values())`. -/
def FRIENDS : List String := IN_GAME_NAMES.map Prod.snd

/-- The static `MAP_NAME_TO_MAP_TYPE` lookup table. -/
def MAP_NAME_TO_MAP_TYPE : List (String × String) :=
  [("Spider-Islands", "Convoy"),
   ("Krakoa", "Domination"),
   ("Yggdrasill Path", "Convoy"),
   ("Birnin T'Challa", "Domination"),
   ("Central Park", "Convergence"),
   ("Symbiotic Surface", "Convergence"),
   ("Hell's Heaven", "Domination"),
   ("Midtown", "Convoy"),
   ("Hall Of Djalia", "Convergence"),
   ("Arakko", "Convoy")]

/-- `MAP_NAME_TO_MAP_TYPE[name]`, with `none` for the `KeyError` case. -/
def mapNameToMapType (name : String) : Option String :=
  (MAP_NAME_TO_MAP_TYPE.find? (fun p => p.1 = name)).map Prod.snd

/-- `_check_if_friend_game`: the match has a same-team record whose name is in
`FRIENDS` and differs from the viewed player.  The Python builds a set of
teammate names and intersects with `FRIENDS`; the list form below has the same
`any` semantics. -/
def check_if_friend_game (match_data : MatchData) (player_ign : String) : Bool :=
  let match_details := matchDetails match_data
  if match_details.isEmpty then false
  else
    let teammates := (match_details.filter (fun p => p.is_same_team)).map (fun p => p.name)
    let friends_in_game := teammates.filter (fun n => decide (n ∈ FRIENDS))
    friends_in_game.any (fun friend => friend != player_ign)

/-- `filter_matches`: identity when the flag is off, otherwise keep exactly the
friend games. -/
def filter_matches (ms : List (String × MatchData)) (only_friend_games : Bool)
    (player_ign : String) : List (String × MatchData) :=
  if !only_friend_games then ms
  else ms.filter (fun kv => check_if_friend_game kv.2 player_ign)

/-! ### Stable descending sort (model of `sorted(..., reverse=True)`) -/

/-- Descending order on the value component of a keyed entry. -/
def descRel {β : Type} [LinearOrder β] (a b : String × β) : Prop := b.2 ≤ a.2

instance {β : Type} [LinearOrder β] : DecidableRel (@descRel β _) :=
  fun a b => inferInstanceAs (Decidable (b.2 ≤ a.2))

instance {β : Type} [LinearOrder β] : IsTotal (String × β) (@descRel β _) :=
  ⟨fun a b => le_total b.2 a.2⟩

instance {β : Type} [LinearOrder β] : IsTrans (String × β) (@descRel β _) :=
  ⟨fun _ _ _ hab hbc => le_trans hbc hab⟩

/-- `dict(sorted(items, key=lambda item: item[1], reverse=True))`: a stable
sort placing larger values first. -/
def sortDesc {β : Type} [LinearOrder β] (l : List (String × β)) : List (String × β) :=
  List.insertionSort (@descRel β _) l

/-! ### defaultdict accumulators -/

/-- `defaultdict(lambda: {"total_plus_minus": 0, "num_games": 0})` update:
add `delta` to the key's running total and bump its game count, inserting the
key at the end on first touch (Python dict insertion order). -/
def bumpStat (stats : List (String × Int × Nat)) (key : String) (delta : Int) :
    List (String × Int × Nat) :=
  match stats with
  | [] => [(key, delta, 1)]
  | e :: rest =>
    if e.1 = key then (e.1, e.2.1 + delta, e.2.2 + 1) :: rest
    else e :: bumpStat rest key delta

/-- `defaultdict(int)` update: add `delta` at `key`. -/
def bumpTotal (stats : List (String × Int)) (key : String) (delta : Int) :
    List (String × Int) :=
  match stats with
  | [] => [(key, delta)]
  | e :: rest =>
    if e.1 = key then (e.1, e.2 + delta) :: rest
    else e :: bumpTotal rest key delta

/-- `defaultdict(int)` update: add 1 at `key`. -/
def bumpCount (stats : List (String × Nat)) (key : String) : List (String × Nat) :=
  match stats with
  | [] => [(key, 1)]
  | e :: rest =>
    if e.1 = key then (e.1, e.2 + 1) :: rest
    else e :: bumpCount rest key

/-! ### Hero performance aggregation (`get_overall_plus_minus`,
`get_average_plus_minus`): both build the same `hero_stats` accumulator. -/

/-- Fold one hero list of the player's record into `hero_stats`. -/
def bumpHeroes (acc : List (String × Int × Nat)) (hs : List String) (delta : Int) :
    List (String × Int × Nat) :=
  hs.foldl (fun a hero => bumpStat a hero delta) acc

/-- One `player_data` loop step of the `hero_stats` accumulation. -/
def heroStatsRecord (acc : List (String × Int × Nat)) (player_ign : String)
    (p : PlayerMatchRecord) : List (String × Int × Nat) :=
  if p.name = player_ign then bumpHeroes acc p.heroes p.rank_delta else acc

/-- One match's contribution to `hero_stats` (inner loop over
`match_data.get("match_details", [])`). -/
def heroStatsMatch (acc : List (String × Int × Nat)) (player_ign : String)
    (md : MatchData) : List (String × Int × Nat) :=
  (matchDetails md).foldl (fun a p => heroStatsRecord a player_ign p) acc

/-- The `hero_stats` accumulator shared by `get_overall_plus_minus` and
`get_average_plus_minus` (their accumulation loops are identical). -/
def heroStats (filtered_matches : List (String × MatchData)) (player_ign : String) :
    List (String × Int × Nat) :=
  filtered_matches.foldl (fun a kv => heroStatsMatch a player_ign kv.2) []

/-- `get_overall_plus_minus`: keep heroes with `num_games >= 5`, project the
totals, sort descending by total. -/
def get_overall_plus_minus (filtered_matches : List (String × MatchData))
    (player_ign : String) : List (String × Int) :=
  let hero_stats := heroStats filtered_matches player_ign
  let filtered_hero_stats :=
    (hero_stats.filter (fun s => decide (5 ≤ s.2.2))).map (fun s => (s.1, s.2.1))
  sortDesc filtered_hero_stats

/-- `get_average_plus_minus`: keep heroes with `num_games >= 5`, divide total
by count (exactly, in `Rat`), sort descending by average. -/
def get_average_plus_minus (filtered_matches : List (String × MatchData))
    (player_ign : String) : List (String × Rat) :=
  let hero_stats := heroStats filtered_matches player_ign
  let results :=
    (hero_stats.filter (fun s => decide (5 ≤ s.2.2))).map
      (fun s => (s.1, (s.2.1 : Rat) / (s.2.2 : Rat)))
  sortDesc results

/-! ### Matchup aggregation (`get_matchups`, `get_total_matchups`) -/

/-- One match's contribution to the `matchups` accumulator of `get_matchups`:
find the player's first record, require the character among its heroes, select
the target records, and accumulate the *current player's* `rank_delta` once
per hero each target played. -/
def matchupsStep (acc : List (String × Int × Nat)) (player_ign character : String)
    (target_teammates filter_teammates_to_friends : Bool) (md : MatchData) :
    List (String × Int × Nat) :=
  let details := matchDetails md
  match details.filter (fun p => p.name = player_ign) with
  | [] => acc
  | current_player :: _ =>
    if character ∈ current_player.heroes then
      let target_players := details.filter
        (fun p => p.name != player_ign && p.is_same_team == target_teammates)
      let target_players :=
        if target_teammates && filter_teammates_to_friends then
          target_players.filter (fun p => decide (p.name ∈ FRIENDS))
        else target_players
      target_players.foldl
        (fun a t => bumpHeroes a t.heroes current_player.rank_delta) acc
    else acc

/-- `get_matchups`: average of the viewing player's delta per target hero,
sorted descending. -/
def get_matchups (filtered_matches : List (String × MatchData))
    (player_ign character : String)
    (target_teammates filter_teammates_to_friends : Bool) : List (String × Rat) :=
  let matchups := filtered_matches.foldl
    (fun a kv => matchupsStep a player_ign character target_teammates
      filter_teammates_to_friends kv.2) []
  let results :=
    (matchups.filter (fun s => decide (0 < s.2.2))).map
      (fun s => (s.1, (s.2.1 : Rat) / (s.2.2 : Rat)))
  sortDesc results

/-- One match's contribution to the `matchups` accumulator of
`get_total_matchups` (a bare `defaultdict(int)` of summed deltas). -/
def totalMatchupsStep (acc : List (String × Int)) (player_ign character : String)
    (target_teammates filter_teammates_to_friends : Bool) (md : MatchData) :
    List (String × Int) :=
  let details := matchDetails md
  match details.filter (fun p => p.name = player_ign) with
  | [] => acc
  | current_player :: _ =>
    if character ∈ current_player.heroes then
      let target_players := details.filter
        (fun p => p.name != player_ign && p.is_same_team == target_teammates)
      let target_players :=
        if target_teammates && filter_teammates_to_friends then
          target_players.filter (fun p => decide (p.name ∈ FRIENDS))
        else target_players
      target_players.foldl
        (fun a t => t.heroes.foldl
          (fun a2 hero => bumpTotal a2 hero current_player.rank_delta) a) acc
    else acc

/-- `get_total_matchups`: cumulative viewing-player delta per target hero,
sorted descending. -/
def get_total_matchups (filtered_matches : List (String × MatchData))
    (player_ign character : String)
    (target_teammates filter_teammates_to_friends : Bool) : List (String × Int) :=
  let matchups := filtered_matches.foldl
    (fun a kv => totalMatchupsStep a player_ign character target_teammates
      filter_teammates_to_friends kv.2) []
  sortDesc matchups

/-! ### Map / map-type aggregation -/

/-- `get_map_performance_for_hero`: per-map total delta and game count for the
matches where the player's first record lists `character`; a missing `map`
field falls back to the key `"Unknown"` (`match_data.get("map", "Unknown")`). -/
def get_map_performance_for_hero (filtered_matches : List (String × MatchData))
    (player_ign character : String) : List (String × Int) × List (String × Nat) :=
  filtered_matches.foldl
    (fun acc kv =>
      let map_name := kv.2.map.getD "Unknown"
      match (matchDetails kv.2).filter (fun p => p.name = player_ign) with
      | [] => acc
      | player_data :: _ =>
        if character ∈ player_data.heroes then
          (bumpTotal acc.1 map_name player_data.rank_delta, bumpCount acc.2 map_name)
        else acc)
    ([], [])

/-- The loop of `get_map_type_performance_for_hero`.  The first statement of
each iteration is `MAP_NAME_TO_MAP_TYPE[match_data["map"]]`, so a missing
`map` field or an unmapped map name raises (modelled as `none`) *before* the
player/hero checks. -/
def mapTypeLoop (player_ign character : String)
    (acc : List (String × Int) × List (String × Nat)) :
    List (String × MatchData) → Option (List (String × Int) × List (String × Nat))
  | [] => some acc
  | kv :: rest =>
    match kv.2.map with
    | none => none
    | some map_name =>
      match mapNameToMapType map_name with
      | none => none
      | some map_type =>
        match (matchDetails kv.2).filter (fun p => p.name = player_ign) with
        | [] => mapTypeLoop player_ign character acc rest
        | player_data :: _ =>
          if character ∈ player_data.heroes then
            mapTypeLoop player_ign character
              (bumpTotal acc.1 map_type player_data.rank_delta,
               bumpCount acc.2 map_type) rest
          else mapTypeLoop player_ign character acc rest

/-- `get_map_type_performance_for_hero`: like the per-map variant but keyed by
map type via the static table; `none` models the `KeyError` raised on an
unmapped (or absent) map name. -/
def get_map_type_performance_for_hero (filtered_matches : List (String × MatchData))
    (player_ign character : String) :
    Option (List (String × Int) × List (String × Nat)) :=
  mapTypeLoop player_ign character ([], []) filtered_matches

/-! ### Timestamp handling (`convert_datetime`) and day-of-week aggregation -/

/-- A parsed `%Y-%m-%dT%H:%M:%S%z` timestamp (offset in minutes). -/
structure ParsedTimestamp where
  year : Int
  month : Nat
  day : Nat
  hour : Nat
  minute : Nat
  second : Nat
  tzOffsetMinutes : Int
  deriving DecidableEq

/-- Numeric value of a decimal digit character, `none` otherwise. -/
def digitVal (c : Char) : Option Nat :=
  if c.isDigit then some (c.toNat - 48) else none

/-- Two-digit decimal field. -/
def parse2 (a b : Char) : Option Nat := do
  pure ((← digitVal a) * 10 + (← digitVal b))

/-- Four-digit decimal field. -/
def parse4 (a b c d : Char) : Option Nat := do
  pure (((← digitVal a) * 10 + (← digitVal b)) * 100 + ((← digitVal c) * 10 + (← digitVal d)))

/-- `datetime.strptime(ts, "%Y-%m-%dT%H:%M:%S%z")` for the repository's
documented timestamp shape `YYYY-MM-DDTHH:MM:SS±HH:MM`; `none` models the
`ValueError` on any other input. -/
def parseTimestamp (s : String) : Option ParsedTimestamp :=
  match s.toList with
  | [y1, y2, y3, y4, '-', mo1, mo2, '-', d1, d2, 'T',
     h1, h2, ':', mi1, mi2, ':', s1, s2, sg, o1, o2, ':', p1, p2] => do
    let y ← parse4 y1 y2 y3 y4
    let mo ← parse2 mo1 mo2
    let d ← parse2 d1 d2
    let h ← parse2 h1 h2
    let mi ← parse2 mi1 mi2
    let se ← parse2 s1 s2
    let oh ← parse2 o1 o2
    let om ← parse2 p1 p2
    let sign : Int ← if sg = '+' then some 1 else if sg = '-' then some (-1) else none
    if 1 ≤ mo ∧ mo ≤ 12 ∧ 1 ≤ d ∧ d ≤ 31 ∧ h ≤ 23 ∧ mi ≤ 59 ∧ se ≤ 61 ∧ oh ≤ 23 ∧ om ≤ 59 then
      some ⟨y, mo, d, h, mi, se, sign * ((oh : Int) * 60 + om)⟩
    else none
  | _ => none

/-- Days since 1970-01-01 of a civil date (standard civil-calendar formula). -/
def daysFromCivil (y : Int) (m d : Nat) : Int :=
  let yAdj : Int := if m ≤ 2 then y - 1 else y
  let era : Int := Int.fdiv yAdj 400
  let yoe : Int := yAdj - era * 400
  let mp : Nat := (m + 9) % 12
  let doy : Int := (153 * (mp : Int) + 2) / 5 + (d : Int) - 1
  let doe : Int := yoe * 365 + yoe / 4 - yoe / 100 + doy
  era * 146097 + doe - 719468

/-- `convert_datetime`: parse the timestamp and shift to PST (UTC-8), reduced
to minutes since the epoch in PST local wall-clock time (the only part of the
converted datetime the aggregations consume is its local day). -/
def convert_datetime (match_timestamp : String) : Option Int :=
  (parseTimestamp match_timestamp).map
    (fun t => daysFromCivil t.year t.month t.day * 1440
      + (t.hour : Int) * 60 + (t.minute : Int) - t.tzOffsetMinutes - 480)

/-- `days_order`: the seven canonical day names in fixed order. -/
def days_order : List String :=
  ["Monday", "Tuesday", "Wednesday", "Thursday", "Friday", "Saturday", "Sunday"]

/-- `strftime('%A')` of a PST local time given in minutes since the epoch
(1970-01-01 was a Thursday, index 3 counting from Monday). -/
def dayName (pstMinutes : Int) : String :=
  days_order.getD ((Int.fdiv pstMinutes 1440 + 3).emod 7).toNat ""

/-- The `day_stats` accumulator of `get_performance_by_day_of_week`: skip
matches without a (parseable, nonempty) timestamp; bucket the *first* record
of the viewed player per match (the loop `break`s after finding it). -/
def dayStats (filtered_matches : List (String × MatchData)) (player_ign : String) :
    List (String × Int × Nat) :=
  filtered_matches.foldl
    (fun acc kv =>
      match kv.2.match_timestamp with
      | none => acc
      | some ts =>
        if ts = "" then acc
        else
          match convert_datetime ts with
          | none => acc
          | some pst =>
            match (matchDetails kv.2).find? (fun p => p.name = player_ign) with
            | none => acc
            | some p => bumpStat acc (dayName pst) p.rank_delta)
    []

/-- `get_performance_by_day_of_week`: totals and per-game averages per day
name, zero-filled and re-ordered over the seven canonical days. -/
def get_performance_by_day_of_week (filtered_matches : List (String × MatchData))
    (player_ign : String) : List (String × Int) × List (String × Rat) :=
  let day_stats := dayStats filtered_matches player_ign
  let total_performance :=
    (days_order.filter (fun day => (day_stats.lookup day).isSome)).map
      (fun day => (day, ((day_stats.lookup day).getD (0, 0)).1))
  let average_performance :=
    (days_order.filter (fun day =>
        ((day_stats.lookup day).map (fun s => decide (0 < s.2))).getD false)).map
      (fun day => (day,
        (((day_stats.lookup day).getD (0, 0)).1 : Rat)
          / (((day_stats.lookup day).getD (0, 0)).2 : Rat)))
  let ordered_total := days_order.map (fun day => (day, (total_performance.lookup day).getD 0))
  let ordered_average :=
    days_order.map (fun day => (day, (average_performance.lookup day).getD 0))
  (ordered_total, ordered_average)

/-! ### Chart-spec builders -/

/-- The part of a Plotly bar-chart figure the builders actually determine:
category axis, value axis, per-bar sign colors, and the title. -/
structure ChartSpec (β : Type) where
  x : List String
  y : List β
  colors : List String
  title : String
  deriving DecidableEq

/-- Sign coloring `['blue' if delta >= 0 else 'red' for delta in y_values]`. -/
def signColors {β : Type} [LinearOrder β] [Zero β] (ys : List β) : List String :=
  ys.map (fun v => if 0 ≤ v then "blue" else "red")

/-- `create_hero_average_chart`: `None` on an empty mapping, otherwise the bars
sorted descending by average delta. -/
def create_hero_average_chart (avg_pm : List (String × Rat)) (player_ign : String) :
    Option (ChartSpec Rat) :=
  if avg_pm.isEmpty then none
  else
    let df := sortDesc avg_pm
    some ⟨df.map Prod.fst, df.map Prod.snd, signColors (df.map Prod.snd),
      "Average Hero Performance for " ++ player_ign ++ " (+/- per Game)"⟩

/-- `create_hero_total_chart`: `None` on an empty mapping, otherwise the bars
sorted descending by total delta. -/
def create_hero_total_chart (overall_pm : List (String × Int)) (player_ign : String) :
    Option (ChartSpec Int) :=
  if overall_pm.isEmpty then none
  else
    let df := sortDesc overall_pm
    some ⟨df.map Prod.fst, df.map Prod.snd, signColors (df.map Prod.snd),
      "Total Hero Performance for " ++ player_ign ++ " (Cumulative +/-)"⟩

/-- `create_matchup_chart`: `None` on an empty mapping, otherwise bars sorted
descending by average delta. -/
def create_matchup_chart (matchup_data : List (String × Rat))
    (player_ign character : String) (is_teammate_chart : Bool) :
    Option (ChartSpec Rat) :=
  if matchup_data.isEmpty then none
  else
    let title_part := if is_teammate_chart then "With Teammate" else "Against Opponent"
    let df := sortDesc matchup_data
    some ⟨df.map Prod.fst, df.map Prod.snd, signColors (df.map Prod.snd),
      "Average Rank Delta " ++ title_part ++ " (When Playing " ++ character ++ ")"⟩

/-- `create_total_matchup_chart`: `None` on an empty mapping, otherwise bars
sorted descending by total delta. -/
def create_total_matchup_chart (matchup_data : List (String × Int))
    (player_ign character : String) (is_teammate_chart : Bool) :
    Option (ChartSpec Int) :=
  if matchup_data.isEmpty then none
  else
    let title_part := if is_teammate_chart then "With Teammate" else "Against Opponent"
    let df := sortDesc matchup_data
    some ⟨df.map Prod.fst, df.map Prod.snd, signColors (df.map Prod.snd),
      "Total Cumulative Rank Delta " ++ title_part ++ " (When Playing " ++ character ++ ")"⟩

/-- `create_map_performance_chart`: `None` on an empty mapping; in average
mode divide each total by `map_games.get(map, 1)` and sort by the averages, in
total mode sort by the totals (values are carried in `Rat`; the total branch
plots the integer totals unchanged). -/
def create_map_performance_chart (map_data : List (String × Int))
    (map_games : List (String × Nat)) (player_ign character : String)
    (show_average : Bool) : Option (ChartSpec Rat) :=
  if map_data.isEmpty then none
  else if show_average then
    let rows := map_data.map
      (fun p => (p.1, (p.2 : Rat) / (((map_games.lookup p.1).getD 1 : Nat) : Rat)))
    let df := sortDesc rows
    some ⟨df.map Prod.fst, df.map Prod.snd, signColors (df.map Prod.snd),
      "Average Map Performance for " ++ character ++ " (Avg +/- per Game)"⟩
  else
    let df := sortDesc map_data
    some ⟨df.map Prod.fst, df.map (fun p => (p.2 : Rat)),
      signColors (df.map (fun p => (p.2 : Rat))),
      "Total Map Performance for " ++ character ++ " (Cumulative +/-)"⟩

/-- `create_map_type_performance_chart`: identical to the per-map builder up
to titles. -/
def create_map_type_performance_chart (map_data : List (String × Int))
    (map_games : List (String × Nat)) (player_ign character : String)
    (show_average : Bool) : Option (ChartSpec Rat) :=
  if map_data.isEmpty then none
  else if show_average then
    let rows := map_data.map
      (fun p => (p.1, (p.2 : Rat) / (((map_games.lookup p.1).getD 1 : Nat) : Rat)))
    let df := sortDesc rows
    some ⟨df.map Prod.fst, df.map Prod.snd, signColors (df.map Prod.snd),
      "Average Map Type Performance for " ++ character ++ " (Avg +/- per Game)"⟩
  else
    let df := sortDesc map_data
    some ⟨df.map Prod.fst, df.map (fun p => (p.2 : Rat)),
      signColors (df.map (fun p => (p.2 : Rat))),
      "Total Map Type Performance for " ++ character ++ " (Cumulative +/-)"⟩

/-- `create_performance_by_day_chart`: `None` on an empty mapping or when
every value is zero; otherwise the bars keep the input (canonical day) order —
this builder performs no sorting. -/
def create_performance_by_day_chart {β : Type} [LinearOrder β] [Zero β]
    (performance_data : List (String × β)) (player_ign : String)
    (is_average : Bool) : Option (ChartSpec β) :=
  if performance_data.isEmpty || performance_data.all (fun p => p.2 == 0) then none
  else
    let title_suffix :=
      if is_average then "Average (+/- per Game)" else "Total (Cumulative +/-)"
    some ⟨performance_data.map Prod.fst, performance_data.map Prod.snd,
      signColors (performance_data.map Prod.snd),
      "Performance by Day of Week for " ++ player_ign ++ " - " ++ title_suffix⟩

/-! ### Reference (spec-side) per-hero sums

`heroTotalSpec`/`heroCountSpec` spell out "the sum of the player's
`rank_delta` counted once per (match, hero) touch": for each match, each
record of the viewed player contributes `rank_delta` once per occurrence of
the hero in its hero list. -/

/-- One record's delta contribution to a hero's total. -/
def recTotal (player_ign hero : String) (p : PlayerMatchRecord) : Int :=
  if p.name = player_ign then p.rank_delta * (p.heroes.count hero : Int) else 0

/-- One record's contribution to a hero's game count. -/
def recCount (player_ign hero : String) (p : PlayerMatchRecord) : Nat :=
  if p.name = player_ign then p.heroes.count hero else 0

/-- The hero's total delta over a match collection, summed record by record. -/
def heroTotalSpec (fm : List (String × MatchData)) (player_ign hero : String) : Int :=
  (fm.map (fun kv => ((matchDetails kv.2).map (recTotal player_ign hero)).sum)).sum

/-- The hero's game count over a match collection, summed record by record. -/
def heroCountSpec (fm : List (String × MatchData)) (player_ign hero : String) : Nat :=
  (fm.map (fun kv => ((matchDetails kv.2).map (recCount player_ign hero)).sum)).sum

/-! ### Concrete fixtures for counterexamples and witnesses -/

/-- C1 counterexample match: player `P` plays hero `X` once with delta 8. -/
def mdC1 : MatchData := ⟨none, none, some [⟨"P", true, 8, ["X"]⟩]⟩

/-- C1 counterexample collection: a single match. -/
def fmC1 : List (String × MatchData) := [("m1", mdC1)]

/-- C1 witness collection: five matches of hero `X` at delta 8 each. -/
def fmC1w : List (String × MatchData) :=
  [("m1", mdC1), ("m2", mdC1), ("m3", mdC1), ("m4", mdC1), ("m5", mdC1)]

/-- C2 witness match: player `P` plays hero `X` with delta 7. -/
def mdC2 : MatchData := ⟨none, none, some [⟨"P", true, 7, ["X"]⟩]⟩

/-- C2 witness collection: five matches, total 35, count 5, average 7. -/
def fmC2w : List (String × MatchData) :=
  [("m1", mdC2), ("m2", mdC2), ("m3", mdC2), ("m4", mdC2), ("m5", mdC2)]

/-- C3 fixture match 1: `P` plays `A` (delta +10) with teammate hero `B`. -/
def mdC3a : MatchData :=
  ⟨none, none, some [⟨"P", true, 10, ["A"]⟩, ⟨"Q1", true, 0, ["B"]⟩]⟩

/-- C3 fixture match 2: `P` plays `A` (delta -5) against opponent hero `C`. -/
def mdC3b : MatchData :=
  ⟨none, none, some [⟨"P", true, -5, ["A"]⟩, ⟨"Q2", false, 0, ["C"]⟩]⟩

/-- C3 two-match fixture. -/
def fmC3 : List (String × MatchData) := [("m1", mdC3a), ("m2", mdC3b)]

/-- C3 witness match: `P` did not play hero `A` here. -/
def mdC3skip : MatchData := ⟨none, none, some [⟨"P", true, 3, ["Z"]⟩]⟩

/-- C4 witness match: a friend (`LunaToeMuncher`) is a teammate. -/
def mdC4 : MatchData := ⟨none, none, some [⟨"LunaToeMuncher", true, 0, []⟩]⟩

/-- C4 witness collection. -/
def fmC4 : List (String × MatchData) := [("m1", mdC4)]

/-- C7 counterexample day-of-week data: values in strictly increasing order. -/
def dayCexData : List (String × Int) := [("Monday", 1), ("Tuesday", 2)]

/-- C8 witness: a match on a mapped map (`Krakoa`). -/
def fmC8good : List (String × MatchData) :=
  [("m1", ⟨none, some "Krakoa", some [⟨"P", true, 2, ["A"]⟩]⟩)]

/-- C8 witness: a match on an unmapped map name. -/
def fmC8bad : List (String × MatchData) :=
  [("m1", ⟨none, some "Atlantis", some [⟨"P", true, 2, ["A"]⟩]⟩)]

/-- C9 match: unmapped map name, and `P` has no record at all here. -/
def mdC9 : MatchData := ⟨none, some "Atlantis", some [⟨"Q", true, 4, ["A"]⟩]⟩

/-- C9 collection. -/
def fmC9 : List (String × MatchData) := [("m1", mdC9)]

/-- C10 witness match: qualifying record for `P`/`A`, `map` field absent. -/
def mdC10 : MatchData := ⟨none, none, some [⟨"P", true, 6, ["A"]⟩]⟩

/-- The player record inside `mdC10`. -/
def pC10 : PlayerMatchRecord := ⟨"P", true, 6, ["A"]⟩

/-- Claim-side reading of the friend-game filter predicate: some same-team
record names a friend other than the viewed player. -/
def friendGameSpec (player_ign : String) (md : MatchData) : Prop :=
  ∃ p ∈ matchDetails md, p.is_same_team = true ∧ p.name ≠ player_ign ∧ p.name ∈ FRIENDS

instance (player_ign : String) (md : MatchData) : Decidable (friendGameSpec player_ign md) := by
  unfold friendGameSpec
  infer_instance

/-! ## Theorems -/

/-! ### Association-list lookup facts -/

theorem lookup_eq_none_iff {γ : Type} (s : List (String × γ)) (k : String) :
    s.lookup k = none ↔ k ∉ s.map Prod.fst := by
  induction s with
  | nil => simp
  | cons e rest ih =>
    rcases e with ⟨k1, v1⟩
    by_cases hk : k = k1
    · subst hk
      simp [List.lookup_cons]
    · simp [List.lookup_cons, beq_eq_false_iff_ne.mpr hk, ih, hk]

theorem lookup_mem {γ : Type} {s : List (String × γ)} {k : String} {v : γ}
    (h : s.lookup k = some v) : (k, v) ∈ s := by
  induction s with
  | nil => simp at h
  | cons e rest ih =>
    rcases e with ⟨k1, v1⟩
    by_cases hk : k = k1
    · subst hk
      simp [List.lookup_cons] at h
      simp [h]
    · simp [List.lookup_cons, beq_eq_false_iff_ne.mpr hk] at h
      exact List.mem_cons_of_mem _ (ih h)

theorem mem_lookup {γ : Type} {s : List (String × γ)} {k : String} {v : γ}
    (nd : (s.map Prod.fst).Nodup) (h : (k, v) ∈ s) : s.lookup k = some v := by
  induction s with
  | nil => simp at h
  | cons e rest ih =>
    rcases e with ⟨k1, v1⟩
    simp only [List.map_cons, List.nodup_cons] at nd
    rcases List.mem_cons.mp h with heq | hmem
    · rcases Prod.mk.injEq .. ▸ heq with ⟨hk, hv⟩
      subst hk; subst hv
      simp [List.lookup_cons]
    · have hk : k ≠ k1 := by
        intro hkk
        subst hkk
        exact nd.1 (List.mem_map.mpr ⟨(k, v), hmem, rfl⟩)
      simp only [List.lookup_cons, beq_eq_false_iff_ne.mpr hk]
      exact ih nd.2 hmem

/-! ### C4 / C5: the filter stage -/

theorem check_if_friend_game_iff (md : MatchData) (ign : String) :
    check_if_friend_game md ign = true ↔ friendGameSpec ign md := by
  unfold friendGameSpec
  by_cases hd : matchDetails md = []
  · simp [check_if_friend_game, hd]
  · simp only [check_if_friend_game, List.isEmpty_iff, hd, if_false]
    simp only [List.any_eq_true, List.mem_filter, List.mem_map, bne_iff_ne,
      decide_eq_true_eq]
    constructor
    · rintro ⟨n, ⟨⟨p, ⟨hp, hteam⟩, rfl⟩, hfr⟩, hne⟩
      exact ⟨p, hp, hteam, hne, hfr⟩
    · rintro ⟨p, hp, hteam, hne, hfr⟩
      exact ⟨p.name, ⟨⟨p, ⟨hp, hteam⟩, rfl⟩, hfr⟩, hne⟩

/-- C4: `filter_matches` with the flag off returns the mapping unchanged; with
the flag on it keeps exactly the matches having a same-team record whose name
is a friend different from the viewed player; every kept match has a nonempty
`match_details` (a missing `match_details` is read as the empty list).  The
functions are total, so no input raises. -/
theorem C4_filter_matches_contract (ms : List (String × MatchData)) (player_ign : String) :
    filter_matches ms false player_ign = ms ∧
    filter_matches ms true player_ign =
      ms.filter (fun kv => decide (friendGameSpec player_ign kv.2)) ∧
    ∀ kv ∈ filter_matches ms true player_ign, matchDetails kv.2 ≠ [] := by
  refine ⟨rfl, ?_, ?_⟩
  · simp only [filter_matches, Bool.not_true, Bool.false_eq_true, if_false]
    apply List.filter_congr
    intro kv _
    rw [Bool.eq_iff_iff]
    rw [check_if_friend_game_iff, decide_eq_true_eq]
  · intro kv hkv
    simp only [filter_matches, Bool.not_true, Bool.false_eq_true, if_false,
      List.mem_filter] at hkv
    rcases (check_if_friend_game_iff kv.2 player_ign).mp hkv.2 with ⟨p, hp, -⟩
    intro hempty
    rw [hempty] at hp
    exact List.not_mem_nil p hp

/-- C4 witness: the contract applied to a concrete one-match collection. -/
theorem C4_filter_matches_contract_witness : matchDetails mdC4 ≠ [] :=
  (C4_filter_matches_contract fmC4 "x").2.2 ("m1", mdC4) (by decide)

/-- C5: filtering is idempotent for either flag value. -/
theorem C5_filter_matches_idempotent (ms : List (String × MatchData)) (flag : Bool)
    (player_ign : String) :
    filter_matches (filter_matches ms flag player_ign) flag player_ign =
      filter_matches ms flag player_ign := by
  cases flag
  · rfl
  · simp [filter_matches, List.filter_filter]

/-! ### `bumpStat` and the `hero_stats` fold -/

theorem bumpStat_lookup_self (s : List (String × Int × Nat)) (k : String) (d : Int) :
    (bumpStat s k d).lookup k =
      some (((s.lookup k).getD (0, 0)).1 + d, ((s.lookup k).getD (0, 0)).2 + 1) := by
  induction s with
  | nil => simp [bumpStat]
  | cons e rest ih =>
    rcases e with ⟨k1, t1, n1⟩
    by_cases hk : k1 = k
    · subst hk
      simp [bumpStat, List.lookup_cons]
    · have hk2 : k ≠ k1 := fun h => hk h.symm
      simp [bumpStat, hk, List.lookup_cons, beq_eq_false_iff_ne.mpr hk2, ih]

theorem bumpStat_lookup_ne (s : List (String × Int × Nat)) (k : String) (d : Int)
    {k2 : String} (h : k2 ≠ k) : (bumpStat s k d).lookup k2 = s.lookup k2 := by
  induction s with
  | nil => simp [bumpStat, List.lookup_cons, beq_eq_false_iff_ne.mpr h]
  | cons e rest ih =>
    rcases e with ⟨k1, t1, n1⟩
    by_cases hk : k1 = k
    · subst hk
      simp [bumpStat, List.lookup_cons, beq_eq_false_iff_ne.mpr h]
    · by_cases hk2 : k2 = k1
      · subst hk2
        simp [bumpStat, hk, List.lookup_cons]
      · simp [bumpStat, hk, List.lookup_cons, beq_eq_false_iff_ne.mpr hk2, ih]

theorem bumpStat_keys (s : List (String × Int × Nat)) (k : String) (d : Int) :
    (bumpStat s k d).map Prod.fst =
      if k ∈ s.map Prod.fst then s.map Prod.fst else s.map Prod.fst ++ [k] := by
  induction s with
  | nil => simp [bumpStat]
  | cons e rest ih =>
    rcases e with ⟨k1, t1, n1⟩
    by_cases hk : k1 = k
    · subst hk
      simp [bumpStat]
    · have hk2 : k ≠ k1 := fun h => hk h.symm
      by_cases hmem : k ∈ rest.map Prod.fst
      · simp [bumpStat, hk, ih, hmem, hk2]
      · simp [bumpStat, hk, ih, hmem, hk2]

theorem bumpStat_nodup {s : List (String × Int × Nat)} (k : String) (d : Int)
    (nd : (s.map Prod.fst).Nodup) : ((bumpStat s k d).map Prod.fst).Nodup := by
  rw [bumpStat_keys]
  by_cases hmem : k ∈ s.map Prod.fst
  · simpa [hmem] using nd
  · simp [hmem, List.nodup_append, nd]

theorem bumpHeroes_lookup_getD (hs : List String) (acc : List (String × Int × Nat))
    (d : Int) (k : String) :
    ((bumpHeroes acc hs d).lookup k).getD (0, 0) =
      (((acc.lookup k).getD (0, 0)).1 + d * (hs.count k : Int),
       ((acc.lookup k).getD (0, 0)).2 + hs.count k) := by
  induction hs generalizing acc with
  | nil => simp [bumpHeroes]
  | cons h hs ih =>
    have hstep : bumpHeroes acc (h :: hs) d = bumpHeroes (bumpStat acc h d) hs d := rfl
    rw [hstep, ih]
    by_cases hk : h = k
    · subst hk
      rw [bumpStat_lookup_self]
      simp [List.count_cons_self]
      constructor
      · push_cast
        ring
      · omega
    · have hk2 : k ≠ h := fun hkk => hk hkk.symm
      rw [bumpStat_lookup_ne _ _ _ hk2]
      simp [List.count_cons_of_ne hk2]

theorem bumpHeroes_lookup_none (hs : List String) (acc : List (String × Int × Nat))
    (d : Int) (k : String) :
    (bumpHeroes acc hs d).lookup k = none ↔ acc.lookup k = none ∧ hs.count k = 0 := by
  induction hs generalizing acc with
  | nil => simp [bumpHeroes]
  | cons h hs ih =>
    have hstep : bumpHeroes acc (h :: hs) d = bumpHeroes (bumpStat acc h d) hs d := rfl
    rw [hstep, ih]
    by_cases hk : h = k
    · subst hk
      simp [bumpStat_lookup_self, List.count_cons_self]
    · have hk2 : k ≠ h := fun hkk => hk hkk.symm
      rw [bumpStat_lookup_ne _ _ _ hk2]
      simp [List.count_cons_of_ne hk2]

theorem bumpHeroes_nodup (hs : List String) {acc : List (String × Int × Nat)} (d : Int)
    (nd : (acc.map Prod.fst).Nodup) : ((bumpHeroes acc hs d).map Prod.fst).Nodup := by
  induction hs generalizing acc with
  | nil => exact nd
  | cons h hs ih => exact ih (bumpStat_nodup h d nd)

theorem heroStatsRecord_lookup_getD (acc : List (String × Int × Nat))
    (ign : String) (p : PlayerMatchRecord) (k : String) :
    ((heroStatsRecord acc ign p).lookup k).getD (0, 0) =
      (((acc.lookup k).getD (0, 0)).1 + recTotal ign k p,
       ((acc.lookup k).getD (0, 0)).2 + recCount ign k p) := by
  by_cases hn : p.name = ign
  · simp only [heroStatsRecord, hn, if_true, recTotal, recCount]
    rw [bumpHeroes_lookup_getD]
  · simp [heroStatsRecord, hn, recTotal, recCount]

theorem heroStatsRecord_lookup_none (acc : List (String × Int × Nat))
    (ign : String) (p : PlayerMatchRecord) (k : String) :
    (heroStatsRecord acc ign p).lookup k = none ↔
      acc.lookup k = none ∧ recCount ign k p = 0 := by
  by_cases hn : p.name = ign
  · simp only [heroStatsRecord, hn, if_true, recCount]
    rw [bumpHeroes_lookup_none]
  · simp [heroStatsRecord, hn, recCount]

theorem heroStatsMatch_lookup_getD (acc : List (String × Int × Nat))
    (ign : String) (md : MatchData) (k : String) :
    ((heroStatsMatch acc ign md).lookup k).getD (0, 0) =
      (((acc.lookup k).getD (0, 0)).1 + ((matchDetails md).map (recTotal ign k)).sum,
       ((acc.lookup k).getD (0, 0)).2 + ((matchDetails md).map (recCount ign k)).sum) := by
  show (((matchDetails md).foldl (fun a p => heroStatsRecord a ign p) acc).lookup k).getD (0, 0) = _
  induction matchDetails md generalizing acc with
  | nil => simp
  | cons p ps ih =>
    rw [List.foldl_cons, ih, heroStatsRecord_lookup_getD]
    simp [add_assoc]

theorem heroStatsMatch_lookup_none (acc : List (String × Int × Nat))
    (ign : String) (md : MatchData) (k : String) :
    (heroStatsMatch acc ign md).lookup k = none ↔
      acc.lookup k = none ∧ ((matchDetails md).map (recCount ign k)).sum = 0 := by
  show ((matchDetails md).foldl (fun a p => heroStatsRecord a ign p) acc).lookup k = none ↔ _
  induction matchDetails md generalizing acc with
  | nil => simp
  | cons p ps ih =>
    rw [List.foldl_cons, ih, heroStatsRecord_lookup_none]
    constructor
    · rintro ⟨⟨h1, h2⟩, h3⟩
      exact ⟨h1, by simp [h2, h3]⟩
    · rintro ⟨h1, h23⟩
      simp only [List.map_cons, List.sum_cons, Nat.add_eq_zero] at h23
      exact ⟨⟨h1, h23.1⟩, h23.2⟩

theorem heroStatsMatch_nodup {acc : List (String × Int × Nat)} (ign : String)
    (md : MatchData) (nd : (acc.map Prod.fst).Nodup) :
    ((heroStatsMatch acc ign md).map Prod.fst).Nodup := by
  show (((matchDetails md).foldl (fun a p => heroStatsRecord a ign p) acc).map Prod.fst).Nodup
  induction matchDetails md generalizing acc with
  | nil => exact nd
  | cons p ps ih =>
    rw [List.foldl_cons]
    apply ih
    by_cases hn : p.name = ign
    · simp only [heroStatsRecord, hn, if_true]
      exact bumpHeroes_nodup _ _ nd
    · simpa [heroStatsRecord, hn] using nd

theorem heroStats_lookup_getD (fm : List (String × MatchData)) (ign k : String) :
    ((heroStats fm ign).lookup k).getD (0, 0) =
      (heroTotalSpec fm ign k, heroCountSpec fm ign k) := by
  have aux : ∀ (l : List (String × MatchData)) (acc : List (String × Int × Nat)),
      ((l.foldl (fun a kv => heroStatsMatch a ign kv.2) acc).lookup k).getD (0, 0) =
        (((acc.lookup k).getD (0, 0)).1
            + (l.map (fun kv => ((matchDetails kv.2).map (recTotal ign k)).sum)).sum,
         ((acc.lookup k).getD (0, 0)).2
            + (l.map (fun kv => ((matchDetails kv.2).map (recCount ign k)).sum)).sum) := by
    intro l
    induction l with
    | nil => simp
    | cons kv rest ih =>
      intro acc
      rw [List.foldl_cons, ih, heroStatsMatch_lookup_getD]
      simp [add_assoc]
  have h := aux fm []
  simp only [List.lookup_nil, Option.getD_none] at h
  simpa [heroStats, heroTotalSpec, heroCountSpec] using h

theorem heroStats_lookup_none_iff (fm : List (String × MatchData)) (ign k : String) :
    (heroStats fm ign).lookup k = none ↔ heroCountSpec fm ign k = 0 := by
  have aux : ∀ (l : List (String × MatchData)) (acc : List (String × Int × Nat)),
      (l.foldl (fun a kv => heroStatsMatch a ign kv.2) acc).lookup k = none ↔
        acc.lookup k = none ∧
          (l.map (fun kv => ((matchDetails kv.2).map (recCount ign k)).sum)).sum = 0 := by
    intro l
    induction l with
    | nil => simp
    | cons kv rest ih =>
      intro acc
      rw [List.foldl_cons, ih, heroStatsMatch_lookup_none]
      constructor
      · rintro ⟨⟨h1, h2⟩, h3⟩
        exact ⟨h1, by simp [h2, h3]⟩
      · rintro ⟨h1, h23⟩
        simp only [List.map_cons, List.sum_cons, Nat.add_eq_zero] at h23
        exact ⟨⟨h1, h23.1⟩, h23.2⟩
  have h := aux fm []
  simpa [heroStats, heroCountSpec] using h

theorem heroStats_nodup (fm : List (String × MatchData)) (ign : String) :
    ((heroStats fm ign).map Prod.fst).Nodup := by
  have aux : ∀ (l : List (String × MatchData)) (acc : List (String × Int × Nat)),
      (acc.map Prod.fst).Nodup →
      ((l.foldl (fun a kv => heroStatsMatch a ign kv.2) acc).map Prod.fst).Nodup := by
    intro l
    induction l with
    | nil => exact fun acc nd => nd
    | cons kv rest ih =>
      intro acc nd
      rw [List.foldl_cons]
      exact ih _ (heroStatsMatch_nodup ign kv.2 nd)
  exact aux fm [] (by simp)

theorem mem_heroStats_iff (fm : List (String × MatchData)) (ign k : String)
    (t : Int) (n : Nat) :
    (k, (t, n)) ∈ heroStats fm ign ↔
      heroCountSpec fm ign k ≠ 0 ∧ t = heroTotalSpec fm ign k ∧
        n = heroCountSpec fm ign k := by
  constructor
  · intro h
    have hl := mem_lookup (heroStats_nodup fm ign) h
    have hg := heroStats_lookup_getD fm ign k
    rw [hl] at hg
    simp only [Option.getD_some, Prod.mk.injEq] at hg
    have hcnt : heroCountSpec fm ign k ≠ 0 := by
      intro h0
      have hn := (heroStats_lookup_none_iff fm ign k).mpr h0
      rw [hn] at hl
      exact Option.noConfusion hl
    exact ⟨hcnt, hg.1, hg.2⟩
  · rintro ⟨hne, rfl, rfl⟩
    rcases hcase : (heroStats fm ign).lookup k with _ | v
    · exact absurd ((heroStats_lookup_none_iff fm ign k).mp hcase) hne
    · have hg := heroStats_lookup_getD fm ign k
      rw [hcase] at hg
      simp only [Option.getD_some] at hg
      exact lookup_mem (hg ▸ hcase)

/-! ### `sortDesc` facts -/

theorem sortDesc_perm {β : Type} [LinearOrder β] (l : List (String × β)) :
    List.Perm (sortDesc l) l :=
  List.perm_insertionSort _ l

theorem sortDesc_sorted {β : Type} [LinearOrder β] (l : List (String × β)) :
    List.Sorted (@descRel β _) (sortDesc l) :=
  List.sorted_insertionSort _ l

theorem sortDesc_values_sorted {β : Type} [LinearOrder β] (l : List (String × β)) :
    List.Sorted (fun a b : β => b ≤ a) ((sortDesc l).map Prod.snd) := by
  have h := sortDesc_sorted l
  rw [List.Sorted, List.pairwise_map]
  exact h

/-! ### C1 / C2: hero performance aggregation -/

/-- C1 (amended): `get_overall_plus_minus` keeps exactly the heroes whose game
count is at least 5 (the threshold the claim omitted for the total variant);
for those, the value is the exact sum of the player's `rank_delta` counted
once per (match, hero) touch, the sum of returned values is the sum of the
contributing deltas of the retained heroes, and entries are sorted descending
by value. -/
theorem C1_overall_plus_minus_amended (fm : List (String × MatchData)) (ign : String) :
    (∀ k : String, ∀ v : Int, (k, v) ∈ get_overall_plus_minus fm ign ↔
      5 ≤ heroCountSpec fm ign k ∧ v = heroTotalSpec fm ign k) ∧
    ((get_overall_plus_minus fm ign).map Prod.snd).sum =
      (((get_overall_plus_minus fm ign).map Prod.fst).map
        (fun k => heroTotalSpec fm ign k)).sum ∧
    List.Sorted (fun a b : Int => b ≤ a) ((get_overall_plus_minus fm ign).map Prod.snd) := by
  have hmem : ∀ k : String, ∀ v : Int, (k, v) ∈ get_overall_plus_minus fm ign ↔
      5 ≤ heroCountSpec fm ign k ∧ v = heroTotalSpec fm ign k := by
    intro k v
    show (k, v) ∈ sortDesc (((heroStats fm ign).filter
        (fun s => decide (5 ≤ s.2.2))).map (fun s => (s.1, s.2.1))) ↔ _
    rw [(sortDesc_perm _).mem_iff]
    simp only [List.mem_map, List.mem_filter, decide_eq_true_eq]
    constructor
    · rintro ⟨⟨k1, t, n⟩, ⟨hmem, hn⟩, hproj⟩
      rcases Prod.mk.injEq .. ▸ hproj with ⟨rfl, rfl⟩
      rcases (mem_heroStats_iff fm ign k1 t n).mp hmem with ⟨-, rfl, rfl⟩
      exact ⟨hn, rfl⟩
    · rintro ⟨hn, rfl⟩
      refine ⟨(k, (heroTotalSpec fm ign k, heroCountSpec fm ign k)), ⟨?_, hn⟩, rfl⟩
      exact (mem_heroStats_iff fm ign k _ _).mpr ⟨by omega, rfl, rfl⟩
  refine ⟨hmem, ?_, ?_⟩
  · have hcongr : (get_overall_plus_minus fm ign).map Prod.snd =
        (get_overall_plus_minus fm ign).map (fun e => heroTotalSpec fm ign e.1) := by
      apply List.map_congr_left
      intro e he
      exact ((hmem e.1 e.2).mp (by simpa using he)).2
    rw [hcongr, List.map_map]
    rfl
  · exact sortDesc_values_sorted _

/-- C1 counterexample: one match touching hero `X` (count 1, delta 8) yields
an *empty* total aggregation — the hero does not appear as a key and the value
sum 0 differs from the contributing delta sum 8, refuting the unfiltered
reading of the claim. -/
theorem C1_overall_plus_minus_counterexample :
    get_overall_plus_minus fmC1 "P" = [] ∧
    heroCountSpec fmC1 "P" "X" = 1 ∧ heroTotalSpec fmC1 "P" "X" = 8 := by
  refine ⟨?_, by decide, by decide⟩
  decide

/-- C1 witness: five matches of hero `X` at delta 8 put `("X", 40)` in the
total aggregation, via the amended theorem. -/
theorem C1_overall_plus_minus_witness :
    ("X", (40 : Int)) ∈ get_overall_plus_minus fmC1w "P" :=
  ((C1_overall_plus_minus_amended fmC1w "P").1 "X" 40).mpr (by decide)

/-- C2: `get_average_plus_minus` contains exactly the heroes with game count
at least 5, each valued total/count exactly (rational division), heroes below
the threshold never appear, and entries are sorted descending by value. -/
theorem C2_average_plus_minus_contract (fm : List (String × MatchData)) (ign : String) :
    (∀ k : String, ∀ v : Rat, (k, v) ∈ get_average_plus_minus fm ign ↔
      5 ≤ heroCountSpec fm ign k ∧
        v = (heroTotalSpec fm ign k : Rat) / (heroCountSpec fm ign k : Rat)) ∧
    List.Sorted (fun a b : Rat => b ≤ a) ((get_average_plus_minus fm ign).map Prod.snd) := by
  refine ⟨?_, sortDesc_values_sorted _⟩
  intro k v
  show (k, v) ∈ sortDesc (((heroStats fm ign).filter
      (fun s => decide (5 ≤ s.2.2))).map
        (fun s => (s.1, (s.2.1 : Rat) / (s.2.2 : Rat)))) ↔ _
  rw [(sortDesc_perm _).mem_iff]
  simp only [List.mem_map, List.mem_filter, decide_eq_true_eq]
  constructor
  · rintro ⟨⟨k1, t, n⟩, ⟨hmem, hn⟩, hproj⟩
    rcases Prod.mk.injEq .. ▸ hproj with ⟨rfl, rfl⟩
    rcases (mem_heroStats_iff fm ign k1 t n).mp hmem with ⟨-, rfl, rfl⟩
    exact ⟨hn, rfl⟩
  · rintro ⟨hn, rfl⟩
    refine ⟨(k, (heroTotalSpec fm ign k, heroCountSpec fm ign k)), ⟨?_, hn⟩, rfl⟩
    exact (mem_heroStats_iff fm ign k _ _).mpr ⟨by omega, rfl, rfl⟩

/-- C2 witness: five matches of hero `X` at delta 7 each put `("X", 7)` in the
average aggregation. -/
theorem C2_average_plus_minus_witness :
    ("X", (7 : Rat)) ∈ get_average_plus_minus fmC2w "P" := by
  have ht : heroTotalSpec fmC2w "P" "X" = 35 := by decide
  have hc : heroCountSpec fmC2w "P" "X" = 5 := by decide
  exact ((C2_average_plus_minus_contract fmC2w "P").1 "X" 7).mpr
    ⟨by rw [hc], by rw [ht, hc]; norm_num⟩

/-! ### C3: matchup aggregation -/

theorem matchupsStep_skip (acc : List (String × Int × Nat)) (ign ch : String)
    (tt ftf : Bool) (md : MatchData)
    (h : ∀ p ∈ matchDetails md, p.name = ign → ch ∉ p.heroes) :
    matchupsStep acc ign ch tt ftf md = acc := by
  rcases hf : (matchDetails md).filter (fun p => decide (p.name = ign)) with _ | ⟨cp, rest⟩
  · simp [matchupsStep, hf]
  · have hcp : cp ∈ (matchDetails md).filter (fun p => decide (p.name = ign)) := by
      rw [hf]
      exact List.mem_cons_self cp rest
    rw [List.mem_filter, decide_eq_true_eq] at hcp
    simp [matchupsStep, hf, h cp hcp.1 hcp.2]

/-- C3: on the two-match fixture (player `P` plays `A` with teammate hero `B`
at delta +10, and `A` against opponent hero `C` at delta -5), `get_matchups`
attributes `P`'s own delta: the teammate aggregation is `{B: 10.0}` and the
opponent aggregation `{C: -5.0}`; moreover a match in which the player did
not play the given hero contributes nothing to the result. -/
theorem C3_matchups_attribution :
    get_matchups fmC3 "P" "A" true false = [("B", (10 : Rat))] ∧
    get_matchups fmC3 "P" "A" false false = [("C", (-5 : Rat))] ∧
    (∀ ms1 ms2 : List (String × MatchData), ∀ mid : String, ∀ md : MatchData,
      ∀ ign ch : String, ∀ tt ftf : Bool,
      (∀ p ∈ matchDetails md, p.name = ign → ch ∉ p.heroes) →
      get_matchups (ms1 ++ (mid, md) :: ms2) ign ch tt ftf =
        get_matchups (ms1 ++ ms2) ign ch tt ftf) := by
  refine ⟨?_, ?_, ?_⟩
  · have hacc : fmC3.foldl
        (fun a kv => matchupsStep a "P" "A" true false kv.2)
        ([] : List (String × Int × Nat)) = [("B", 10, 1)] := by decide
    simp only [get_matchups, hacc]
    norm_num [sortDesc]
  · have hacc : fmC3.foldl
        (fun a kv => matchupsStep a "P" "A" false false kv.2)
        ([] : List (String × Int × Nat)) = [("C", -5, 1)] := by decide
    simp only [get_matchups, hacc]
    norm_num [sortDesc]
  · intro ms1 ms2 mid md ign ch tt ftf h
    have hf : (ms1 ++ (mid, md) :: ms2).foldl
        (fun a kv => matchupsStep a ign ch tt ftf kv.2) ([] : List (String × Int × Nat)) =
        (ms1 ++ ms2).foldl
          (fun a kv => matchupsStep a ign ch tt ftf kv.2) ([] : List (String × Int × Nat)) := by
      rw [List.foldl_append, List.foldl_append, List.foldl_cons,
        matchupsStep_skip _ ign ch tt ftf md h]
    simp only [get_matchups, hf]

/-- C3 witness: the no-contribution clause applied to a concrete skipped
match prepended to the fixture. -/
theorem C3_matchups_attribution_witness :
    get_matchups (("m0", mdC3skip) :: fmC3) "P" "A" true false =
      get_matchups fmC3 "P" "A" true false :=
  C3_matchups_attribution.2.2 [] fmC3 "m0" mdC3skip "P" "A" true false (by decide)

/-! ### C8 / C9 / C10: map and map-type aggregation -/

theorem mapTypeLoop_isSome (ign ch : String) :
    ∀ (ms : List (String × MatchData)) (acc : List (String × Int) × List (String × Nat)),
    (∀ kv ∈ ms, ∃ mn : String, kv.2.map = some mn ∧ (mapNameToMapType mn).isSome) →
    (mapTypeLoop ign ch acc ms).isSome := by
  intro ms
  induction ms with
  | nil => intro acc _; simp [mapTypeLoop]
  | cons kv rest ih =>
    intro acc hall
    rcases hall kv (List.mem_cons_self kv rest) with ⟨mn, hmap, hty⟩
    rcases hsome : mapNameToMapType mn with _ | mt
    · rw [hsome] at hty
      simp at hty
    · have hrest : ∀ kv2 ∈ rest, ∃ mn : String,
          kv2.2.map = some mn ∧ (mapNameToMapType mn).isSome :=
        fun kv2 h2 => hall kv2 (List.mem_cons_of_mem kv h2)
      simp only [mapTypeLoop, hmap, hsome]
      rcases hfl : (matchDetails kv.2).filter (fun p => decide (p.name = ign)) with _ | ⟨pd, tl⟩
      · simp only [hfl]
        exact ih acc hrest
      · simp only [hfl]
        by_cases hch : ch ∈ pd.heroes
        · simp only [hch, if_true]
          exact ih _ hrest
        · simp only [hch, if_false]
          exact ih acc hrest

theorem mapTypeLoop_none (ign ch : String) :
    ∀ (ms : List (String × MatchData)) (acc : List (String × Int) × List (String × Nat))
      (kv : String × MatchData), kv ∈ ms →
    (∀ mn : String, kv.2.map = some mn → mapNameToMapType mn = none) →
    mapTypeLoop ign ch acc ms = none := by
  intro ms
  induction ms with
  | nil => intro acc kv h _; simp at h
  | cons kv0 rest ih =>
    intro acc kv hmem hbad
    rcases List.mem_cons.mp hmem with rfl | htail
    · rcases hmap : kv.2.map with _ | mn
      · simp [mapTypeLoop, hmap]
      · simp [mapTypeLoop, hmap, hbad mn hmap]
    · rcases hmap0 : kv0.2.map with _ | mn0
      · simp [mapTypeLoop, hmap0]
      · rcases hty0 : mapNameToMapType mn0 with _ | mt0
        · simp [mapTypeLoop, hmap0, hty0]
        · simp only [mapTypeLoop, hmap0, hty0]
          rcases hfl : (matchDetails kv0.2).filter (fun p => decide (p.name = ign)) with _ | ⟨pd, tl⟩
          · simp only [hfl]
            exact ih acc kv htail hbad
          · simp only [hfl]
            by_cases hch : ch ∈ pd.heroes
            · simp only [hch, if_true]
              exact ih _ kv htail hbad
            · simp only [hch, if_false]
              exact ih acc kv htail hbad

/-- C8: the map-type aggregation succeeds iff its data-completeness
precondition holds: it returns a value whenever every match carries a map
name present in the static table, and returns the error (`none`, the
`KeyError`) whenever some match's map name misses the table (or the `map`
field is absent, which raises on the same line). -/
theorem C8_map_type_lookup_contract (fm : List (String × MatchData)) (ign ch : String) :
    ((∀ kv ∈ fm, ∃ mn : String, kv.2.map = some mn ∧ (mapNameToMapType mn).isSome) →
      (get_map_type_performance_for_hero fm ign ch).isSome) ∧
    (∀ kv ∈ fm, (∀ mn : String, kv.2.map = some mn → mapNameToMapType mn = none) →
      get_map_type_performance_for_hero fm ign ch = none) := by
  constructor
  · intro hall
    exact mapTypeLoop_isSome ign ch fm ([], []) hall
  · intro kv hmem hbad
    exact mapTypeLoop_none ign ch fm ([], []) kv hmem hbad

/-- C8 witness: a mapped map name (`Krakoa`) succeeds, an unmapped one
(`Atlantis`) raises. -/
theorem C8_map_type_lookup_contract_witness :
    (get_map_type_performance_for_hero fmC8good "P" "A").isSome ∧
    get_map_type_performance_for_hero fmC8bad "P" "A" = none := by
  constructor
  · apply (C8_map_type_lookup_contract fmC8good "P" "A").1
    intro kv hkv
    rcases List.mem_singleton.mp hkv with rfl
    exact ⟨"Krakoa", rfl, by decide⟩
  · apply (C8_map_type_lookup_contract fmC8bad "P" "A").2 ("m1", ⟨none, some "Atlantis", some [⟨"P", true, 2, ["A"]⟩]⟩) (by decide)
    intro mn hmn
    rcases Option.some.injEq .. ▸ hmn with rfl
    decide

/-- C9: the map-type lookup happens before the player and hero checks, so a
match with an unmapped map name poisons the whole aggregation even when the
viewed player has no record in it (the match would contribute nothing, as the
per-map variant on the same input shows). -/
theorem C9_map_type_lookup_eager :
    get_map_type_performance_for_hero fmC9 "P" "A" = none ∧
    (matchDetails mdC9).filter (fun p => decide (p.name = "P")) = [] ∧
    get_map_performance_for_hero fmC9 "P" "A" = ([], []) := by
  refine ⟨by decide, by decide, by decide⟩

/-- C10: the per-map aggregation is total (it never raises), and a qualifying
match (the player's first record lists the hero) is accumulated under
`match_data.get("map", "Unknown")`: the key `"Unknown"` when the `map` field
is absent, the map name verbatim otherwise. -/
theorem C10_map_performance_unknown_fallback (ms : List (String × MatchData))
    (mid : String) (md : MatchData) (ign ch : String) (p : PlayerMatchRecord)
    (rest : List PlayerMatchRecord)
    (hp : (matchDetails md).filter (fun q => decide (q.name = ign)) = p :: rest)
    (hch : ch ∈ p.heroes) :
    get_map_performance_for_hero (ms ++ [(mid, md)]) ign ch =
      (bumpTotal (get_map_performance_for_hero ms ign ch).1 (md.map.getD "Unknown")
        p.rank_delta,
       bumpCount (get_map_performance_for_hero ms ign ch).2 (md.map.getD "Unknown")) := by
  simp only [get_map_performance_for_hero, List.foldl_append, List.foldl_cons,
    List.foldl_nil, hp, hch, if_true]

/-- C10 witness: a single qualifying match with no `map` field lands in the
`"Unknown"` bucket. -/
theorem C10_map_performance_unknown_fallback_witness :
    get_map_performance_for_hero [("m0", mdC10)] "P" "A" =
      (bumpTotal [] "Unknown" 6, bumpCount [] "Unknown") :=
  C10_map_performance_unknown_fallback [] "m0" mdC10 "P" "A" pC10 [] (by decide) (by decide)

/-! ### C6: day-of-week aggregation -/

theorem map_fst_tag {γ : Type} (l : List String) (g : String → γ) :
    (l.map (fun d => (d, g d))).map Prod.fst = l := by
  induction l with
  | nil => rfl
  | cons d rest ih => simp [ih]

/-- C6: both day-of-week outputs list exactly the seven canonical day names,
in the fixed Monday-through-Sunday order, and a day with no qualifying match
(no entry in the `day_stats` accumulator) is present with value `0` (total)
and `0` (average) rather than omitted. -/
theorem C6_day_of_week_shape (fm : List (String × MatchData)) (ign : String) :
    ((get_performance_by_day_of_week fm ign).1.map Prod.fst = days_order) ∧
    ((get_performance_by_day_of_week fm ign).2.map Prod.fst = days_order) ∧
    ∀ day ∈ days_order, (dayStats fm ign).lookup day = none →
      (day, (0 : Int)) ∈ (get_performance_by_day_of_week fm ign).1 ∧
      (day, (0 : Rat)) ∈ (get_performance_by_day_of_week fm ign).2 := by
  refine ⟨?_, ?_, ?_⟩
  · simp only [get_performance_by_day_of_week]
    exact map_fst_tag _ _
  · simp only [get_performance_by_day_of_week]
    exact map_fst_tag _ _
  · intro day hday hnone
    constructor
    · simp only [get_performance_by_day_of_week]
      apply List.mem_map.mpr
      refine ⟨day, hday, ?_⟩
      have htp : ((days_order.filter
            (fun d => ((dayStats fm ign).lookup d).isSome)).map
              (fun d => (d, (((dayStats fm ign).lookup d).getD (0, 0)).1))).lookup day
          = none := by
        rw [lookup_eq_none_iff, map_fst_tag]
        intro hmem
        rcases List.mem_filter.mp hmem with ⟨-, hsome⟩
        rw [hnone] at hsome
        simp at hsome
      rw [htp]
      rfl
    · simp only [get_performance_by_day_of_week]
      apply List.mem_map.mpr
      refine ⟨day, hday, ?_⟩
      have hap : ((days_order.filter
            (fun d => (((dayStats fm ign).lookup d).map
              (fun s => decide (0 < s.2))).getD false)).map
              (fun d => (d, ((((dayStats fm ign).lookup d).getD (0, 0)).1 : Rat)
                / ((((dayStats fm ign).lookup d).getD (0, 0)).2 : Rat)))).lookup day
          = none := by
        rw [lookup_eq_none_iff, map_fst_tag]
        intro hmem
        rcases List.mem_filter.mp hmem with ⟨-, hpos⟩
        rw [hnone] at hpos
        simp at hpos
      rw [hap]
      rfl

/-- C6 witness: on the empty collection, Monday is zero-filled in both
outputs. -/
theorem C6_day_of_week_shape_witness :
    ("Monday", (0 : Int)) ∈ (get_performance_by_day_of_week [] "P").1 ∧
    ("Monday", (0 : Rat)) ∈ (get_performance_by_day_of_week [] "P").2 :=
  (C6_day_of_week_shape [] "P").2.2 "Monday" (by decide) (by decide)

/-! ### C7: chart-spec builders -/

/-- C7 counterexample: the day-of-week chart keeps the canonical day order,
so with totals Monday=1, Tuesday=2 its value axis is `[1, 2]`, which is not
in descending order — refuting "every chart builder sorts categories by
descending value". -/
theorem C7_chart_builders_counterexample :
    (create_performance_by_day_chart dayCexData "P" false).map ChartSpec.y =
      some [(1 : Int), 2] ∧
    ¬ List.Sorted (fun a b : Int => b ≤ a) [(1 : Int), 2] := by
  constructor
  · decide
  · decide

/-- C7 (amended): every chart builder returns `None` on an empty mapping; the
day-of-week builder additionally returns `None` when every value is zero; in
every other case a builder returns a non-null spec.  The hero, matchup, map
and map-type builders order categories descending by plotted value; the
day-of-week builder instead preserves the input (canonical day) order. -/
theorem C7_chart_builders_amended :
    (∀ ign : String, create_hero_average_chart [] ign = none) ∧
    (∀ (l : List (String × Rat)) (ign : String), l ≠ [] →
      ∃ s, create_hero_average_chart l ign = some s ∧
        List.Sorted (fun a b : Rat => b ≤ a) s.y) ∧
    (∀ ign : String, create_hero_total_chart [] ign = none) ∧
    (∀ (l : List (String × Int)) (ign : String), l ≠ [] →
      ∃ s, create_hero_total_chart l ign = some s ∧
        List.Sorted (fun a b : Int => b ≤ a) s.y) ∧
    (∀ (ign ch : String) (tb : Bool), create_matchup_chart [] ign ch tb = none) ∧
    (∀ (l : List (String × Rat)) (ign ch : String) (tb : Bool), l ≠ [] →
      ∃ s, create_matchup_chart l ign ch tb = some s ∧
        List.Sorted (fun a b : Rat => b ≤ a) s.y) ∧
    (∀ (ign ch : String) (tb : Bool), create_total_matchup_chart [] ign ch tb = none) ∧
    (∀ (l : List (String × Int)) (ign ch : String) (tb : Bool), l ≠ [] →
      ∃ s, create_total_matchup_chart l ign ch tb = some s ∧
        List.Sorted (fun a b : Int => b ≤ a) s.y) ∧
    (∀ (g : List (String × Nat)) (ign ch : String) (av : Bool),
      create_map_performance_chart [] g ign ch av = none) ∧
    (∀ (l : List (String × Int)) (g : List (String × Nat)) (ign ch : String)
      (av : Bool), l ≠ [] →
      ∃ s, create_map_performance_chart l g ign ch av = some s ∧
        List.Sorted (fun a b : Rat => b ≤ a) s.y) ∧
    (∀ (g : List (String × Nat)) (ign ch : String) (av : Bool),
      create_map_type_performance_chart [] g ign ch av = none) ∧
    (∀ (l : List (String × Int)) (g : List (String × Nat)) (ign ch : String)
      (av : Bool), l ≠ [] →
      ∃ s, create_map_type_performance_chart l g ign ch av = some s ∧
        List.Sorted (fun a b : Rat => b ≤ a) s.y) ∧
    (∀ (l : List (String × Int)) (ign : String) (av : Bool),
      (l = [] ∨ ∀ p ∈ l, p.2 = 0) → create_performance_by_day_chart l ign av = none) ∧
    (∀ (l : List (String × Int)) (ign : String) (av : Bool), l ≠ [] →
      (∃ p ∈ l, p.2 ≠ 0) →
      ∃ s, create_performance_by_day_chart l ign av = some s ∧
        s.y = l.map Prod.snd) ∧
    (∀ (l : List (String × Rat)) (ign : String) (av : Bool),
      (l = [] ∨ ∀ p ∈ l, p.2 = 0) → create_performance_by_day_chart l ign av = none) ∧
    (∀ (l : List (String × Rat)) (ign : String) (av : Bool), l ≠ [] →
      (∃ p ∈ l, p.2 ≠ 0) →
      ∃ s, create_performance_by_day_chart l ign av = some s ∧
        s.y = l.map Prod.snd) := by
  refine ⟨fun ign => rfl, ?_, fun ign => rfl, ?_, fun ign ch tb => rfl, ?_,
    fun ign ch tb => rfl, ?_, fun g ign ch av => rfl, ?_, fun g ign ch av => rfl, ?_,
    ?_, ?_, ?_, ?_⟩
  · rintro (_ | ⟨e, tl⟩) ign hl
    · exact absurd rfl hl
    · exact ⟨_, rfl, sortDesc_values_sorted _⟩
  · rintro (_ | ⟨e, tl⟩) ign hl
    · exact absurd rfl hl
    · exact ⟨_, rfl, sortDesc_values_sorted _⟩
  · rintro (_ | ⟨e, tl⟩) ign ch tb hl
    · exact absurd rfl hl
    · exact ⟨_, rfl, sortDesc_values_sorted _⟩
  · rintro (_ | ⟨e, tl⟩) ign ch tb hl
    · exact absurd rfl hl
    · exact ⟨_, rfl, sortDesc_values_sorted _⟩
  · rintro (_ | ⟨e, tl⟩) g ign ch av hl
    · exact absurd rfl hl
    · cases av
      · refine ⟨_, rfl, ?_⟩
        rw [List.Sorted, List.pairwise_map]
        exact (sortDesc_sorted (e :: tl)).imp (fun h => by exact_mod_cast h)
      · exact ⟨_, rfl, sortDesc_values_sorted _⟩
  · rintro (_ | ⟨e, tl⟩) g ign ch av hl
    · exact absurd rfl hl
    · cases av
      · refine ⟨_, rfl, ?_⟩
        rw [List.Sorted, List.pairwise_map]
        exact (sortDesc_sorted (e :: tl)).imp (fun h => by exact_mod_cast h)
      · exact ⟨_, rfl, sortDesc_values_sorted _⟩
  · rintro l ign av (rfl | hz)
    · rfl
    · have hall : l.all (fun q => q.2 == 0) = true := by
        rw [List.all_eq_true]
        intro q hq
        exact beq_iff_eq.mpr (hz q hq)
      simp [create_performance_by_day_chart, hall]
  · rintro (_ | ⟨e, tl⟩) ign av hl hx
    · exact absurd rfl hl
    · rcases hx with ⟨p, hp, hpz⟩
      have hall : ((e :: tl).all (fun q => q.2 == 0)) = false := by
        cases hta : (e :: tl).all (fun q => q.2 == 0) with
        | false => rfl
        | true => exact absurd (beq_iff_eq.mp (List.all_eq_true.mp hta p hp)) hpz
      have heq : create_performance_by_day_chart (e :: tl) ign av =
          some ⟨(e :: tl).map Prod.fst, (e :: tl).map Prod.snd,
            signColors ((e :: tl).map Prod.snd),
            "Performance by Day of Week for " ++ ign ++ " - " ++
              (if av then "Average (+/- per Game)" else "Total (Cumulative +/-)")⟩ := by
        simp [create_performance_by_day_chart, hall]
      exact ⟨_, heq, rfl⟩
  · rintro l ign av (rfl | hz)
    · rfl
    · have hall : l.all (fun q => q.2 == 0) = true := by
        rw [List.all_eq_true]
        intro q hq
        exact beq_iff_eq.mpr (hz q hq)
      simp [create_performance_by_day_chart, hall]
  · rintro (_ | ⟨e, tl⟩) ign av hl hx
    · exact absurd rfl hl
    · rcases hx with ⟨p, hp, hpz⟩
      have hall : ((e :: tl).all (fun q => q.2 == 0)) = false := by
        cases hta : (e :: tl).all (fun q => q.2 == 0) with
        | false => rfl
        | true => exact absurd (beq_iff_eq.mp (List.all_eq_true.mp hta p hp)) hpz
      have heq : create_performance_by_day_chart (e :: tl) ign av =
          some ⟨(e :: tl).map Prod.fst, (e :: tl).map Prod.snd,
            signColors ((e :: tl).map Prod.snd),
            "Performance by Day of Week for " ++ ign ++ " - " ++
              (if av then "Average (+/- per Game)" else "Total (Cumulative +/-)")⟩ := by
        simp [create_performance_by_day_chart, hall]
      exact ⟨_, heq, rfl⟩

/-- C7 witness: a nonempty hero-average mapping yields a sorted chart, and a
day-of-week mapping with a nonzero value yields a chart in input order. -/
theorem C7_chart_builders_amended_witness :
    (∃ s, create_hero_average_chart [("X", (3 : Rat))] "P" = some s ∧
      List.Sorted (fun a b : Rat => b ≤ a) s.y) ∧
    (∃ s, create_performance_by_day_chart dayCexData "P" false = some s ∧
      s.y = dayCexData.map Prod.snd) :=
  ⟨C7_chart_builders_amended.2.1 [("X", 3)] "P" (by decide),
   C7_chart_builders_amended.2.2.2.2.2.2.2.2.2.2.2.2.2.1 dayCexData "P" false
     (by decide) ⟨("Monday", 1), by decide, by decide⟩⟩
